/-
Verification of the Algebra Visualizer repository against its specification.

Shallow embedding notes:
* Python numbers (ints and floats used as exact quantities) are modelled as
  `ℤ`, `ℚ` or `ℝ`; float rounding is idealised as exact arithmetic.
* Python's `%` on integers takes the sign of the divisor (floor modulus), so
  it is modelled by `Int.fmod`.
* Code that can raise an exception is modelled with `Except String`, where
  `Except.error` means the exception propagates to the caller.
-/
import Mathlib

namespace AlgebraVisualizer

/-! ## src/utils/math_utils.py -/

/-- Model of `solve_linear_equation(a, b, c)` from src/utils/math_utils.py: solves
`a*x + b = c`; raises `ValueError` when `a == 0`, else returns `(c - b) / a`. -/
def solve_linear_equation (a b c : ℚ) : Except String ℚ :=
  if a = 0 then .error "Coefficient 'a' cannot be zero"
  else .ok ((c - b) / a)

/-- Model of `calculate_gcd(a, b)` from src/utils/math_utils.py:
`while b != 0: a, b = b, a % b` then `return abs(a)`.  Python's `%` is floor
modulus, i.e. `Int.fmod`. -/
def calculate_gcd (a b : ℤ) : ℤ :=
  if h : b = 0 then (a.natAbs : ℤ)
  else calculate_gcd b (a.fmod b)
termination_by b.natAbs
decreasing_by
  rcases a with m | m <;> rcases b with n | n
  · rcases n with _ | n
    · exact absurd rfl h
    · show (Int.fmod (Int.ofNat m) (Int.ofNat (n + 1))).natAbs < (Int.ofNat (n + 1)).natAbs
      rcases m with _ | m
      · show (0 : ℤ).natAbs < (Int.ofNat (n + 1)).natAbs
        simp
        omega
      · show (Int.ofNat ((m + 1) % (n + 1))).natAbs < (Int.ofNat (n + 1)).natAbs
        simpa using Nat.mod_lt _ (Nat.succ_pos n)
  · show (Int.fmod (Int.ofNat m) (Int.negSucc n)).natAbs < (Int.negSucc n).natAbs
    rcases m with _ | m
    · simp
    · show (Int.subNatNat (m % (n + 1)) n).natAbs < (Int.negSucc n).natAbs
      rw [Int.subNatNat_eq_coe, Int.natAbs_negSucc]
      have hm : m % (n + 1) < n + 1 := Nat.mod_lt _ (Nat.succ_pos n)
      omega
  · show (Int.fmod (Int.negSucc m) (Int.ofNat n)).natAbs < (Int.ofNat n).natAbs
    rcases n with _ | n
    · exact absurd rfl h
    · show (Int.subNatNat (n + 1) ((m % (n + 1)) + 1)).natAbs < (Int.ofNat (n + 1)).natAbs
      rw [Int.subNatNat_eq_coe]
      have hm : m % (n + 1) < n + 1 := Nat.mod_lt _ (Nat.succ_pos n)
      show (↑(n + 1) - ↑(m % (n + 1) + 1) : ℤ).natAbs < ((n + 1 : ℕ) : ℤ).natAbs
      omega
  · show (- Int.ofNat ((m + 1) % (n + 1))).natAbs < (Int.negSucc n).natAbs
    have hm : (m + 1) % (n + 1) < n + 1 := Nat.mod_lt _ (Nat.succ_pos n)
    simpa using hm

/-- The Euclidean loop of `calculate_gcd`, step-indexed by fuel: `none` means
the loop has not finished within `fuel` iterations. -/
def gcd_loop : ℕ → ℤ → ℤ → Option ℤ
  | 0, _, _ => none
  | fuel + 1, a, b =>
      if b = 0 then some (a.natAbs : ℤ)
      else gcd_loop fuel b (a.fmod b)

/-! ## src/auth.py -/

/-- Abstraction of `hashlib.pbkdf2_hmac('sha256', password, salt, 100000).hex()`:
an external deterministic key-derivation function (password, salt, iteration
count to hex digest). -/
structure HashAlg where
  pbkdf2_hmac_sha256 : String → String → ℕ → String

/-- Model of `AuthSystem._hash_password(password, salt=None)` from src/auth.py.
`freshSalt` stands for the value the call `secrets.token_hex(16)` would
return when `salt` is `None`. Returns `(password_hash, salt)`. -/
def hash_password (alg : HashAlg) (password : String) (salt : Option String)
    (freshSalt : String) : String × String :=
  let s := salt.getD freshSalt
  (alg.pbkdf2_hmac_sha256 password s 100000, s)

/-- Model of `AuthSystem._verify_password(password, password_hash, salt)` from
src/auth.py: recompute the hash with the stored salt and compare. The
`freshSalt` argument of `hash_password` is irrelevant here because a salt is
supplied. -/
def verify_password (alg : HashAlg) (password password_hash salt : String) : Bool :=
  (hash_password alg password (some salt) "").1 == password_hash

/-- Character class `[a-zA-Z0-9._%+-]` of the email regex's local part. -/
def emailLocalChar (c : Char) : Bool :=
  c.isAlphanum || c == '.' || c == '_' || c == '%' || c == '+' || c == '-'

/-- Character class `[a-zA-Z0-9.-]` of the email regex's domain part. -/
def emailDomainChar (c : Char) : Bool :=
  c.isAlphanum || c == '.' || c == '-'

/-- Matching of the domain side of the regex, `[a-zA-Z0-9.-]+\.[a-zA-Z]{2,}$`.
Because the top-level segment `[a-zA-Z]{2,}` cannot contain a dot, a match,
if any, splits the string at its last dot. -/
def validDomain (d : String) : Bool :=
  d.all emailDomainChar &&
  match (d.splitOn ".").getLast? with
  | some t =>
      decide (2 ≤ (d.splitOn ".").length) &&
      decide (2 ≤ t.length) && t.all (fun c => c.isAlpha) &&
      decide (t.length + 2 ≤ d.length)
  | none => false

/-- Model of `AuthSystem._validate_email(email)` from src/auth.py: anchored
match of `^[a-zA-Z0-9._%+-]+@[a-zA-Z0-9.-]+\.[a-zA-Z]{2,}$`. Neither
character class contains `@`, so a match splits the string at its unique `@`. -/
def validate_email (email : String) : Bool :=
  match email.splitOn "@" with
  | [localPart, domain] =>
      decide (localPart ≠ "") && localPart.all emailLocalChar && validDomain domain
  | _ => false

/-- Model of `AuthSystem._validate_password(password)` from src/auth.py:
returns `(is_valid, message)`. -/
def validate_password (password : String) : Bool × String :=
  if password.length < 8 then
    (false, "Password must be at least 8 characters long")
  else if !(password.any fun c => c.isUpper) then
    (false, "Password must contain at least one uppercase letter")
  else if !(password.any fun c => c.isLower) then
    (false, "Password must contain at least one lowercase letter")
  else if !(password.any fun c => c.isDigit) then
    (false, "Password must contain at least one digit")
  else
    (true, "Password is strong")

/-- One row of the `users` table (columns relevant to registration). -/
structure UserRow where
  id : ℕ
  username : String
  email : String
  password_hash : String
  salt : String
deriving DecidableEq

/-- State of the `users` table: its rows plus the `AUTOINCREMENT` counter. -/
structure UsersDB where
  rows : List UserRow
  nextId : ℕ
deriving DecidableEq

/-- Model of `AuthSystem.register_user(username, email, password,
confirm_password)` from src/auth.py. `freshSalt` stands for the
`secrets.token_hex(16)` value used when hashing. Returns
`(success, message, updated table)`; every failure path of the source
returns with the table unchanged. -/
def register_user (alg : HashAlg) (db : UsersDB)
    (username email password confirm_password freshSalt : String) :
    Bool × String × UsersDB :=
  if username == "" || email == "" || password == "" then
    (false, "All fields are required", db)
  else if password != confirm_password then
    (false, "Passwords do not match", db)
  else if !(validate_email email) then
    (false, "Invalid email format", db)
  else if !(validate_password password).1 then
    (false, (validate_password password).2, db)
  else if username.length < 3 then
    (false, "Username must be at least 3 characters long", db)
  else if db.rows.any (fun r => r.username == username || r.email == email) then
    (false, "Username or email already exists", db)
  else
    let hs := hash_password alg password none freshSalt
    let row : UserRow := ⟨db.nextId, username, email, hs.1, hs.2⟩
    (true, "Registration successful! You can now login.",
      ⟨db.rows ++ [row], db.nextId + 1⟩)

/-! ## src/voice_commands.py -/

/-- The voice-command keyword table `VoiceCommandSystem.commands` from
src/voice_commands.py, verbatim. -/
def commands : List (String × String) :=
  [("go to dashboard", "navigate_dashboard"),
   ("show quadratic solver", "navigate_quadratic"),
   ("open polynomial analyzer", "navigate_polynomial"),
   ("show identities", "navigate_identities"),
   ("practice problems", "navigate_practice"),
   ("show progress", "navigate_progress"),
   ("solve quadratic", "solve_quadratic"),
   ("expand expression", "expand_expression"),
   ("factor expression", "factor_expression"),
   ("calculate derivative", "calculate_derivative"),
   ("calculate integral", "calculate_integral"),
   ("graph function", "graph_function"),
   ("stop listening", "stop_listening"),
   ("start listening", "start_listening"),
   ("help", "show_help"),
   ("clear screen", "clear_screen"),
   ("what can I say", "show_commands"),
   ("explain concept", "explain_concept"),
   ("show example", "show_example"),
   ("generate problem", "generate_problem"),
   ("check solution", "check_solution")]

/-- Model of Python's `str.lower()`: lower-case every character. -/
def lower (s : String) : String :=
  ⟨s.data.map Char.toLower⟩

/-- Model of Python's `str.strip()`: drop whitespace from both ends. -/
def strip (s : String) : String :=
  ⟨((s.data.dropWhile Char.isWhitespace).reverse.dropWhile Char.isWhitespace).reverse⟩

/-- Model of `VoiceCommandSystem.process_command(command_text)` from
src/voice_commands.py. The mutable fields `last_command_time` and the clock
`time.time()` are passed explicitly; `command_cooldown` is 2 seconds. `nlp`
abstracts `_parse_natural_language`. Returns the chosen action (or `none`)
together with the updated `last_command_time`. -/
def process_command (last_command_time now : ℚ) (command_text : String)
    (nlp : String → Option String) : Option String × ℚ :=
  if command_text == "" then (none, last_command_time)
  else if now - last_command_time < 2 then (none, last_command_time)
  else
    let normalized := strip (lower command_text)
    (match commands.lookup normalized with
     | some action => some action
     | none => nlp command_text, now)

/-! ## src/math_engine.py

The math engine delegates all symbolic work to external libraries (sympy and
numpy).  Those libraries are out of scope per the spec, so they are
abstracted as a structure of (possibly failing) functions; `Except.error`
models a raised exception. -/

/-- Abstraction of the external libraries used by `MathEngine`: sympy's
parser, rewriters and printer, and numpy's `roots`. `subE`/`zeroE`/`beqE`
model sympy expression construction `l - r`, the literal `0`, and structural
equality `==`. -/
structure CAS where
  Expr : Type
  sympify : String → Except String Expr
  expandE : Expr → Except String Expr
  factorE : Expr → Except String Expr
  diffE : Expr → String → Except String Expr
  integrateE : Expr → String → Except String Expr
  simplifyE : Expr → Except String Expr
  subE : Expr → Expr → Expr
  zeroE : Expr
  beqE : Expr → Expr → Bool
  latexE : Expr → String
  nproots : List ℚ → Except String (List (ℚ × ℚ))

/-- Result dictionary of a `MathEngine` operation: `success` plus either the
operation's payload (the keys set on success) or the `error` message. -/
structure StatusDict (α : Type) where
  success : Bool
  payload : Option α
  error : Option String
deriving DecidableEq

/-- Model of a `try: ... except Exception as e: return {"success": False,
"error": str(e)}` block around a computation of the success payload. -/
def pyTry {α : Type} (body : Except String α) : StatusDict α :=
  match body with
  | .ok v => ⟨true, some v, none⟩
  | .error e => ⟨false, none, some e⟩

/-- Success payload of `expand_expression`: keys `original`, `expanded`. -/
structure ExpandPayload where
  original : String
  expanded : String
deriving DecidableEq

/-- Success payload of `factor_expression`: keys `original`, `factored`. -/
structure FactorPayload where
  original : String
  factored : String
deriving DecidableEq

/-- Success payload of `calculate_derivative` / `calculate_integral`:
keys `function` and `derivative` / `integral`. -/
structure CalcPayload where
  function : String
  result : String
deriving DecidableEq

/-- Success payload of `solve_polynomial`: root lists as (re, im) pairs. -/
structure PolyPayload where
  all_roots : List (ℚ × ℚ)
  real_roots : List (ℚ × ℚ)
  complex_roots : List (ℚ × ℚ)
deriving DecidableEq

/-- Success payload of `prove_identity`: keys `left_side`, `right_side`,
`is_identity`, `difference`. -/
structure IdentityPayload where
  left_side : String
  right_side : String
  is_identity : Bool
  difference : String
deriving DecidableEq

/-- Model of `MathEngine.expand_expression` from src/math_engine.py. The
outer `Except` is the caller's view: `.error` would be an uncaught
exception. -/
def expand_expression (cas : CAS) (expression : String) :
    Except String (StatusDict ExpandPayload) :=
  .ok <| pyTry do
    let expr ← cas.sympify expression
    let expanded ← cas.expandE expr
    return ⟨cas.latexE expr, cas.latexE expanded⟩

/-- Model of `MathEngine.factor_expression` from src/math_engine.py. -/
def factor_expression (cas : CAS) (expression : String) :
    Except String (StatusDict FactorPayload) :=
  .ok <| pyTry do
    let expr ← cas.sympify expression
    let factored ← cas.factorE expr
    return ⟨cas.latexE expr, cas.latexE factored⟩

/-- Model of `MathEngine.solve_polynomial` from src/math_engine.py: numpy
roots split by `abs(r.imag) < 1e-10`. -/
def solve_polynomial (cas : CAS) (coefficients : List ℚ) :
    Except String (StatusDict PolyPayload) :=
  .ok <| pyTry do
    let roots ← cas.nproots coefficients
    let real_roots := roots.filter (fun r => |r.2| < 1 / 10 ^ 10)
    let complex_roots := roots.filter (fun r => ¬ |r.2| < 1 / 10 ^ 10)
    return ⟨roots, real_roots, complex_roots⟩

/-- Model of `MathEngine.calculate_derivative` from src/math_engine.py. -/
def calculate_derivative (cas : CAS) (expression : String)
    (var : String) : Except String (StatusDict CalcPayload) :=
  .ok <| pyTry do
    let expr ← cas.sympify expression
    let derivative ← cas.diffE expr var
    return ⟨cas.latexE expr, cas.latexE derivative⟩

/-- Model of `MathEngine.calculate_integral` from src/math_engine.py. -/
def calculate_integral (cas : CAS) (expression : String)
    (var : String) : Except String (StatusDict CalcPayload) :=
  .ok <| pyTry do
    let expr ← cas.sympify expression
    let integral ← cas.integrateE expr var
    return ⟨cas.latexE expr, cas.latexE integral⟩

/-- Model of `MathEngine.prove_identity` from src/math_engine.py:
`difference = simplify(left_expr - right_expr)` and
`is_identity = (difference == 0)`. -/
def prove_identity (cas : CAS) (left_side right_side : String) :
    Except String (StatusDict IdentityPayload) :=
  .ok <| pyTry do
    let left_expr ← cas.sympify left_side
    let right_expr ← cas.sympify right_side
    let difference ← cas.simplifyE (cas.subE left_expr right_expr)
    return ⟨cas.latexE left_expr, cas.latexE right_expr,
            cas.beqE difference cas.zeroE, cas.latexE difference⟩

/-- Tag `"type"` of a `solve_quadratic` result. -/
inductive QuadType where
  | real
  | double
  | complex
deriving DecidableEq

/-- Result dictionary of `solve_quadratic`. -/
structure QuadResult where
  qtype : QuadType
  roots : List ℝ
  discriminant : ℝ

/-- Model of `MathEngine.solve_quadratic(a, b, c)` from src/math_engine.py.
Floats are idealised as reals.  Unlike every other engine operation this
method has no `try`/`except`: when the `discriminant == 0` or negative
branch divides by `2*a == 0`, Python's division raises an uncaught
`ZeroDivisionError`, modelled as `.error` (the positive branch divides a
numpy float, which yields `inf` instead of raising, modelled as the total
real division). -/
noncomputable def solve_quadratic (a b c : ℝ) : Except String QuadResult :=
  let discriminant := b ^ 2 - 4 * a * c
  if discriminant > 0 then
    .ok ⟨QuadType.real,
         [(-b + Real.sqrt discriminant) / (2 * a),
          (-b - Real.sqrt discriminant) / (2 * a)], discriminant⟩
  else if discriminant = 0 then
    if 2 * a = 0 then .error "ZeroDivisionError"
    else .ok ⟨QuadType.double, [-b / (2 * a)], discriminant⟩
  else
    if 2 * a = 0 then .error "ZeroDivisionError"
    else .ok ⟨QuadType.complex,
              [-b / (2 * a), Real.sqrt (-discriminant) / (2 * a)], discriminant⟩

/-- The quadratic-root predicate `a*x^2 + b*x + c = 0`. -/
def IsQuadRoot (a b c x : ℝ) : Prop :=
  a * x ^ 2 + b * x + c = 0

/-- The property C1 claims of `solve_quadratic` for `a ≠ 0`: type `"real"`
with exactly two (distinct, genuine) real roots iff the discriminant is
positive; type `"double"` with the single root `-b/(2a)` when it is zero;
type `"complex"` when it is negative. -/
def QuadClaim (a b c : ℝ) : Prop :=
  ((∃ res : QuadResult, solve_quadratic a b c = .ok res ∧
      res.qtype = QuadType.real ∧
      ∃ x y : ℝ, res.roots = [x, y] ∧ x ≠ y ∧
        IsQuadRoot a b c x ∧ IsQuadRoot a b c y) ↔
    0 < b ^ 2 - 4 * a * c) ∧
  (b ^ 2 - 4 * a * c = 0 →
    solve_quadratic a b c =
      .ok ⟨QuadType.double, [-b / (2 * a)], b ^ 2 - 4 * a * c⟩ ∧
    IsQuadRoot a b c (-b / (2 * a))) ∧
  (b ^ 2 - 4 * a * c < 0 →
    ∃ res : QuadResult, solve_quadratic a b c = .ok res ∧
      res.qtype = QuadType.complex)

/-- Property of an engine operation's outcome: no exception reaches the
caller, and the returned dictionary is either a success or carries
`success = False` together with an error message. -/
def ReturnsStatus {α : Type} (x : Except String (StatusDict α)) : Prop :=
  ∃ d, x = .ok d ∧
    ((d.success = true ∧ d.error = none) ∨
     (d.success = false ∧ ∃ e, d.error = some e))

/-- A concrete instance of the library abstraction, used to exercise the
engine operations on closed inputs: expressions are integers, `sympify`
parses decimal digit strings, the rewriters are identities. -/
def intCAS : CAS where
  Expr := ℤ
  sympify s :=
    if s.data ≠ [] ∧ s.data.all Char.isDigit then
      .ok (s.data.foldl (fun n c => n * 10 + ((c.toNat : ℤ) - 48)) 0)
    else .error "SympifyError"
  expandE e := .ok e
  factorE e := .ok e
  diffE _ _ := .ok 0
  integrateE e _ := .ok e
  simplifyE e := .ok e
  subE a b := a - b
  zeroE := 0
  beqE a b := a == b
  latexE e := toString e
  nproots _ := .ok []

/-- A concrete key-derivation function, used to exercise the auth model on
closed inputs. -/
def concatHash : HashAlg := ⟨fun p s _ => p ++ s⟩

/-! ## src/gamification.py

The three tables are modelled as maps from their primary keys to optional
rows (`achievements` rows carry no data beyond the key, so presence is a
`Bool`).  `DATE('now')` / `CURRENT_TIMESTAMP` values are passed in as the
`today` argument. -/

/-- One `user_progress` row (without the fixed `user_id` key column). -/
structure ProgressRow where
  total_points : ℚ
  current_level : ℤ
  problems_attempted : ℤ
  problems_solved : ℤ
  streak_days : ℤ
  last_active : String
deriving DecidableEq

/-- One `concept_mastery` row (without its `(user_id, concept)` key). -/
structure MasteryRow where
  proficiency : ℚ
  problems_attempted : ℤ
  problems_solved : ℤ
  last_practiced : String
deriving DecidableEq

/-- State of the gamification database. -/
structure GamDB where
  user_progress : String → Option ProgressRow
  concept_mastery : String → String → Option MasteryRow
  achievements : String → String → Bool

/-- The empty gamification database (fresh `data/user_progress.db`). -/
def emptyGamDB : GamDB :=
  ⟨fun _ => none, fun _ _ => none, fun _ _ => false⟩

/-- Model of `GamificationEngine._init_user_progress(user_id)` from
src/gamification.py: `INSERT OR IGNORE` of the default row
`(0, 1, 0, 0, 0, DATE('now'))`. -/
def init_user_progress (db : GamDB) (user_id today : String) : GamDB :=
  { db with
    user_progress := fun v =>
      if v = user_id then
        some ((db.user_progress user_id).getD ⟨0, 1, 0, 0, 0, today⟩)
      else db.user_progress v }

/-- Python truthiness test `time_taken and time_taken < 60` used for the
speed bonus (`None` and `0` are falsy). -/
def speedBonus (time_taken : Option ℚ) : Bool :=
  match time_taken with
  | none => false
  | some t => decide (t ≠ 0) && decide (t < 60)

/-- Points computation of `update_user_progress`: `difficulty * 10` base
points, `+5` speed bonus, `* 0.1` partial credit for a failed attempt. -/
def points_earned (difficulty : ℚ) (solved_correctly : Bool)
    (time_taken : Option ℚ) : ℚ :=
  let base_points := difficulty * 10
  if solved_correctly then
    if speedBonus time_taken then base_points + 5 else base_points
  else base_points * (1 / 10)

/-- The `points` values of `GamificationEngine.get_achievements()`. -/
def achievement_points (achievement_id : String) : ℚ :=
  if achievement_id = "first_problem" then 10
  else if achievement_id = "quick_learner" then 25
  else if achievement_id = "algebra_expert" then 50
  else if achievement_id = "streak_master" then 30
  else if achievement_id = "speed_demon" then 40
  else 0

/-- Model of `GamificationEngine._award_achievement` from src/gamification.py:
`INSERT` into `achievements` (the duplicate-key `IntegrityError` is caught
and nothing happens), then add the achievement's points to `total_points`. -/
def award_achievement (db : GamDB) (user_id achievement_id : String) : GamDB :=
  if db.achievements user_id achievement_id then db
  else
    { db with
      achievements := fun v a =>
        if v = user_id ∧ a = achievement_id then true else db.achievements v a,
      user_progress := fun v =>
        if v = user_id then
          (db.user_progress v).map fun r =>
            { r with total_points := r.total_points + achievement_points achievement_id }
        else db.user_progress v }

/-- Model of `GamificationEngine._check_achievements` from src/gamification.py:
award `first_problem` when `problems_solved == 1`, then `streak_master` when
`streak_days >= 7`. -/
def check_achievements (db : GamDB) (user_id : String) : GamDB :=
  let db1 :=
    match db.user_progress user_id with
    | some r => if r.problems_solved = 1 then award_achievement db user_id "first_problem" else db
    | none => db
  match db1.user_progress user_id with
  | some r => if 7 ≤ r.streak_days then award_achievement db1 user_id "streak_master" else db1
  | none => db1

/-- Model of `GamificationEngine.update_user_progress(user_id, concept,
difficulty, solved_correctly, time_taken)` from src/gamification.py (the
database part; the returned `(user_data, points_earned)` only reads the
state afterwards). -/
def update_user_progress (db : GamDB) (user_id concept : String)
    (difficulty : ℚ) (solved_correctly : Bool) (time_taken : Option ℚ)
    (today : String) : GamDB :=
  let db0 := init_user_progress db user_id today
  let pts := points_earned difficulty solved_correctly time_taken
  let db1 : GamDB :=
    { db0 with
      user_progress := fun v =>
        if v = user_id then
          (db0.user_progress v).map fun r =>
            { r with
              total_points := r.total_points + pts,
              problems_attempted := r.problems_attempted + 1,
              problems_solved := r.problems_solved + (if solved_correctly then 1 else 0),
              last_active := today }
        else db0.user_progress v }
  let old := db1.concept_mastery user_id concept
  let db2 : GamDB :=
    { db1 with
      concept_mastery := fun v con =>
        if v = user_id ∧ con = concept then
          some ⟨((old.map (·.proficiency)).getD 0) + pts / 10,
                ((old.map (·.problems_attempted)).getD 0) + 1,
                ((old.map (·.problems_solved)).getD 0) + (if solved_correctly then 1 else 0),
                today⟩
        else db1.concept_mastery v con }
  check_achievements db2 user_id

/-- One practice attempt, as fed to `update_user_progress`. -/
structure Attempt where
  concept : String
  difficulty : ℚ
  solved_correctly : Bool
  time_taken : Option ℚ
  day : String
deriving DecidableEq

/-- A sequence of `update_user_progress` calls for one user. -/
def run_attempts (db : GamDB) (user_id : String) (attempts : List Attempt) : GamDB :=
  attempts.foldl
    (fun d a => update_user_progress d user_id a.concept a.difficulty
                  a.solved_correctly a.time_taken a.day) db

/-- The proficiency stored in `concept_mastery` for `(user_id, concept)`
(`0` when the row does not exist, matching the column's `DEFAULT 0` and the
`COALESCE(..., 0)` reads). -/
def proficiency_of (db : GamDB) (user_id concept : String) : ℚ :=
  ((db.concept_mastery user_id concept).map (·.proficiency)).getD 0

/-- Frame property between two gamification-database states with respect to
one user: every row of any other user is unchanged, and no row of any user
is deleted. -/
def FramePreserves (db db2 : GamDB) (u : String) : Prop :=
  (∀ v, v ≠ u → db2.user_progress v = db.user_progress v) ∧
  (∀ v c, v ≠ u → db2.concept_mastery v c = db.concept_mastery v c) ∧
  (∀ v a, v ≠ u → db2.achievements v a = db.achievements v a) ∧
  (∀ v, (db.user_progress v).isSome → (db2.user_progress v).isSome) ∧
  (∀ v c, (db.concept_mastery v c).isSome → (db2.concept_mastery v c).isSome) ∧
  (∀ v a, db.achievements v a = true → db2.achievements v a = true)

/-! ## Supporting lemmas -/

theorem natAbs_fmod_lt (a : ℤ) {b : ℤ} (hb : b ≠ 0) :
    (a.fmod b).natAbs < b.natAbs := by
  rcases a with m | m <;> rcases b with n | n
  · rcases n with _ | n
    · exact absurd rfl hb
    · show (Int.fmod (Int.ofNat m) (Int.ofNat (n + 1))).natAbs < (Int.ofNat (n + 1)).natAbs
      rcases m with _ | m
      · show (0 : ℤ).natAbs < (Int.ofNat (n + 1)).natAbs
        simp
        omega
      · show (Int.ofNat ((m + 1) % (n + 1))).natAbs < (Int.ofNat (n + 1)).natAbs
        simpa using Nat.mod_lt _ (Nat.succ_pos n)
  · show (Int.fmod (Int.ofNat m) (Int.negSucc n)).natAbs < (Int.negSucc n).natAbs
    rcases m with _ | m
    · simp
    · show (Int.subNatNat (m % (n + 1)) n).natAbs < (Int.negSucc n).natAbs
      rw [Int.subNatNat_eq_coe, Int.natAbs_negSucc]
      have hm : m % (n + 1) < n + 1 := Nat.mod_lt _ (Nat.succ_pos n)
      omega
  · show (Int.fmod (Int.negSucc m) (Int.ofNat n)).natAbs < (Int.ofNat n).natAbs
    rcases n with _ | n
    · exact absurd rfl hb
    · show (Int.subNatNat (n + 1) ((m % (n + 1)) + 1)).natAbs < (Int.ofNat (n + 1)).natAbs
      rw [Int.subNatNat_eq_coe]
      have hm : m % (n + 1) < n + 1 := Nat.mod_lt _ (Nat.succ_pos n)
      show (↑(n + 1) - ↑(m % (n + 1) + 1) : ℤ).natAbs < ((n + 1 : ℕ) : ℤ).natAbs
      omega
  · show (- Int.ofNat ((m + 1) % (n + 1))).natAbs < (Int.negSucc n).natAbs
    have hm : (m + 1) % (n + 1) < n + 1 := Nat.mod_lt _ (Nat.succ_pos n)
    simpa using hm

theorem gcd_fmod_step (a b : ℤ) : Int.gcd b (a.fmod b) = Int.gcd a b := by
  apply Nat.dvd_antisymm
  · rw [← Int.natCast_dvd_natCast]
    apply Int.dvd_gcd
    · have h := Int.fmod_add_fdiv a b
      calc (Int.gcd b (a.fmod b) : ℤ) ∣ a.fmod b + b * a.fdiv b :=
            dvd_add Int.gcd_dvd_right (Int.gcd_dvd_left.mul_right _)
        _ = a := h
    · exact Int.gcd_dvd_left
  · rw [← Int.natCast_dvd_natCast]
    apply Int.dvd_gcd
    · exact Int.gcd_dvd_right
    · rw [Int.fmod_def]
      exact dvd_sub Int.gcd_dvd_left (Int.gcd_dvd_right.mul_right _)

theorem calculate_gcd_eq_gcd (a b : ℤ) : calculate_gcd a b = (Int.gcd a b : ℤ) := by
  generalize hn : b.natAbs = n
  induction n using Nat.strong_induction_on generalizing a b with
  | _ n ih =>
    rw [calculate_gcd]
    split
    · next hb => subst hb; simp [Int.gcd]
    · next hb =>
      rw [ih (a.fmod b).natAbs (hn ▸ natAbs_fmod_lt a hb) b (a.fmod b) rfl,
        gcd_fmod_step a b]

theorem gcd_loop_eq (fuel : ℕ) : ∀ a b : ℤ, b.natAbs < fuel →
    gcd_loop fuel a b = some (calculate_gcd a b) := by
  induction fuel with
  | zero => intro a b hlt; omega
  | succ n ih =>
    intro a b hlt
    rw [gcd_loop, calculate_gcd]
    split
    · next hb => simp [hb]
    · next hb =>
      exact ih b (a.fmod b) (by have := natAbs_fmod_lt a hb; omega)

/-! ## Claim theorems -/

/-- C9: `calculate_gcd` terminates for every pair of integers (its Euclidean
loop finishes within `|b| + 1` iterations), its result is the non-negative
greatest common divisor, and `calculate_gcd a 0 = |a|`. -/
theorem C9_calculate_gcd_spec (a b : ℤ) :
    gcd_loop (b.natAbs + 1) a b = some (calculate_gcd a b) ∧
    calculate_gcd a b = (Int.gcd a b : ℤ) ∧
    0 ≤ calculate_gcd a b ∧
    calculate_gcd a 0 = |a| := by
  refine ⟨gcd_loop_eq _ a b (by omega), calculate_gcd_eq_gcd a b, ?_, ?_⟩
  · rw [calculate_gcd_eq_gcd a b]; exact Int.natCast_nonneg _
  · rw [calculate_gcd, dif_pos rfl, Int.abs_eq_natAbs]

/-- C10: `solve_linear_equation(a, b, c)` raises `ValueError` exactly when
`a = 0`; otherwise it returns `x = (c - b) / a`, which satisfies
`a * x + b = c`. -/
theorem C10_solve_linear_equation_spec (a b c : ℚ) :
    ((∃ e, solve_linear_equation a b c = .error e) ↔ a = 0) ∧
    (a ≠ 0 →
      solve_linear_equation a b c = .ok ((c - b) / a) ∧
      a * ((c - b) / a) + b = c) := by
  constructor
  · constructor
    · rintro ⟨e, he⟩
      by_contra h
      simp [solve_linear_equation, h] at he
    · intro h
      exact ⟨"Coefficient 'a' cannot be zero", by simp [solve_linear_equation, h]⟩
  · intro h
    refine ⟨by simp [solve_linear_equation, h], ?_⟩
    field_simp

/-- Witness for C10 at `a = 2`, `b = 3`, `c = 7`. -/
theorem C10_solve_linear_equation_witness :
    ((2 : ℚ) ≠ 0) ∧
    (((∃ e, solve_linear_equation 2 3 7 = .error e) ↔ (2 : ℚ) = 0) ∧
     ((2 : ℚ) ≠ 0 →
       solve_linear_equation 2 3 7 = .ok ((7 - 3) / 2) ∧
       (2 : ℚ) * ((7 - 3) / 2) + 3 = 7)) :=
  ⟨by norm_num, C10_solve_linear_equation_spec 2 3 7⟩

/-- C7: hashing then verifying with the produced hash and salt succeeds, and
for a fixed salt `_hash_password` is deterministic (independent of the fresh
salt that would be generated when no salt is given). -/
theorem C7_password_roundtrip (alg : HashAlg) (p freshSalt s f1 f2 : String) :
    verify_password alg p (hash_password alg p none freshSalt).1
      (hash_password alg p none freshSalt).2 = true ∧
    hash_password alg p (some s) f1 = hash_password alg p (some s) f2 := by
  constructor
  · simp [verify_password, hash_password]
  · rfl

/-- C6: when the cooldown has elapsed and the non-empty command's lower-cased,
stripped form is a key of the keyword table, `process_command` returns
exactly the mapped action, whatever the natural-language parser would do. -/
theorem C6_process_command_keyword (last_command_time now : ℚ)
    (command_text : String) (nlp : String → Option String) (action : String)
    (hne : command_text ≠ "")
    (hcool : ¬ now - last_command_time < 2)
    (hkey : commands.lookup (strip (lower command_text)) = some action) :
    (process_command last_command_time now command_text nlp).1 = some action := by
  unfold process_command
  rw [if_neg (by simpa using hne), if_neg hcool]
  simp [hkey]

/-- Witness for C6: the command `"help"` maps to `"show_help"`. -/
theorem C6_process_command_witness :
    ("help" ≠ "") ∧ ¬ ((2 : ℚ) - 0 < 2) ∧
    commands.lookup (strip (lower "help")) = some "show_help" ∧
    (process_command 0 2 "help" (fun _ => none)).1 = some "show_help" :=
  ⟨by decide, by norm_num, by decide,
   C6_process_command_keyword 0 2 "help" (fun _ => none) "show_help"
     (by decide) (by norm_num) (by decide)⟩

theorem pyTry_shape {α : Type} (b : Except String α) :
    ((pyTry b).success = true ∧ (pyTry b).error = none) ∨
    ((pyTry b).success = false ∧ ∃ e, (pyTry b).error = some e) := by
  cases b <;> simp [pyTry]

/-- C2: for parseable inputs (and a simplification call that returns),
`prove_identity` reports `is_identity = true` exactly when the symbolic
simplification of `left - right` compares equal to zero. -/
theorem C2_prove_identity_iff (cas : CAS) (l r : String)
    (le re diff : cas.Expr)
    (hl : cas.sympify l = .ok le) (hr : cas.sympify r = .ok re)
    (hs : cas.simplifyE (cas.subE le re) = .ok diff) :
    ∃ p : IdentityPayload,
      prove_identity cas l r = .ok ⟨true, some p, none⟩ ∧
      (p.is_identity = true ↔ cas.beqE diff cas.zeroE = true) := by
  refine ⟨⟨cas.latexE le, cas.latexE re, cas.beqE diff cas.zeroE, cas.latexE diff⟩,
    ?_, Iff.rfl⟩
  simp [prove_identity, hl, hr, hs, pyTry, Except.bind, bind, Functor.map, Except.map, pure, Except.pure]

/-- Witness for C2: both sides parse to `5`, the difference simplifies to
`0`, and the identity is reported. -/
theorem C2_prove_identity_witness :
    (intCAS.sympify "5" = .ok (5 : ℤ)) ∧
    (intCAS.simplifyE (intCAS.subE (5 : ℤ) (5 : ℤ)) = .ok (0 : ℤ)) ∧
    (∃ p : IdentityPayload,
       prove_identity intCAS "5" "5" = .ok ⟨true, some p, none⟩ ∧
       (p.is_identity = true ↔ intCAS.beqE (0 : ℤ) intCAS.zeroE = true)) :=
  ⟨by rfl, by rfl,
   C2_prove_identity_iff intCAS "5" "5" (5 : ℤ) (5 : ℤ) (0 : ℤ)
     (by rfl) (by rfl) (by rfl)⟩

/-- C3: registering with a username or email that already exists fails and
leaves the `users` table exactly as it was. -/
theorem C3_register_user_duplicate (alg : HashAlg) (db : UsersDB)
    (username email password confirm_password freshSalt : String)
    (hdup : ∃ r ∈ db.rows, r.username = username ∨ r.email = email) :
    (register_user alg db username email password confirm_password freshSalt).1 = false ∧
    (register_user alg db username email password confirm_password freshSalt).2.2 = db := by
  have hany : (db.rows.any fun r => r.username == username || r.email == email) = true := by
    obtain ⟨r, hr, hcase⟩ := hdup
    refine List.any_eq_true.mpr ⟨r, hr, ?_⟩
    rcases hcase with h | h <;> simp [h]
  unfold register_user
  split_ifs
  any_goals exact ⟨rfl, rfl⟩

/-- Witness for C3: a table already holding user `alice`. -/
theorem C3_register_user_duplicate_witness :
    (∃ r ∈ (⟨[⟨1, "alice", "alice@example.com", "h", "s"⟩], 2⟩ : UsersDB).rows,
        r.username = "alice" ∨ r.email = "new@example.com") ∧
    ((register_user concatHash ⟨[⟨1, "alice", "alice@example.com", "h", "s"⟩], 2⟩
        "alice" "new@example.com" "Passw0rd" "Passw0rd" "salt").1 = false ∧
     (register_user concatHash ⟨[⟨1, "alice", "alice@example.com", "h", "s"⟩], 2⟩
        "alice" "new@example.com" "Passw0rd" "Passw0rd" "salt").2.2 =
       ⟨[⟨1, "alice", "alice@example.com", "h", "s"⟩], 2⟩) :=
  ⟨⟨⟨1, "alice", "alice@example.com", "h", "s"⟩, by simp, Or.inl rfl⟩,
   C3_register_user_duplicate concatHash _ "alice" "new@example.com"
     "Passw0rd" "Passw0rd" "salt"
     ⟨⟨1, "alice", "alice@example.com", "h", "s"⟩, by simp, Or.inl rfl⟩⟩

/-- C5 (amended): the six operations wrapped in `try`/`except` never let a
library failure escape — each returns a status dictionary, with
`success = False` and an error message when the underlying call failed.
(`solve_quadratic`, by contrast, has no handler; see the counterexample.) -/
theorem C5_errors_returned_as_status (cas : CAS) (s v l r : String)
    (coefficients : List ℚ) :
    ReturnsStatus (expand_expression cas s) ∧
    ReturnsStatus (factor_expression cas s) ∧
    ReturnsStatus (solve_polynomial cas coefficients) ∧
    ReturnsStatus (calculate_derivative cas s v) ∧
    ReturnsStatus (calculate_integral cas s v) ∧
    ReturnsStatus (prove_identity cas l r) :=
  ⟨⟨_, rfl, pyTry_shape _⟩, ⟨_, rfl, pyTry_shape _⟩, ⟨_, rfl, pyTry_shape _⟩,
   ⟨_, rfl, pyTry_shape _⟩, ⟨_, rfl, pyTry_shape _⟩, ⟨_, rfl, pyTry_shape _⟩⟩

/-- Counterexample to C5 as stated: `solve_quadratic` is in the claim's list
but has no `try`/`except`; at `a = 0, b = 0, c = 1` the discriminant is `0`
and the `-b / (2*a)` division raises an uncaught `ZeroDivisionError`. -/
theorem C5_counterexample :
    solve_quadratic 0 0 1 = .error "ZeroDivisionError" := by
  unfold solve_quadratic
  norm_num

theorem frame_refl (db : GamDB) (u : String) : FramePreserves db db u :=
  ⟨fun _ _ => rfl, fun _ _ _ => rfl, fun _ _ _ => rfl,
   fun _ h => h, fun _ _ h => h, fun _ _ h => h⟩

theorem frame_trans {d1 d2 d3 : GamDB} {u : String}
    (h1 : FramePreserves d1 d2 u) (h2 : FramePreserves d2 d3 u) :
    FramePreserves d1 d3 u := by
  obtain ⟨a1, b1, c1, p1, q1, r1⟩ := h1
  obtain ⟨a2, b2, c2, p2, q2, r2⟩ := h2
  exact ⟨fun v hv => (a2 v hv).trans (a1 v hv),
         fun v c hv => (b2 v c hv).trans (b1 v c hv),
         fun v a hv => (c2 v a hv).trans (c1 v a hv),
         fun v h => p2 v (p1 v h),
         fun v c h => q2 v c (q1 v c h),
         fun v a h => r2 v a (r1 v a h)⟩

theorem init_frame (db : GamDB) (u today : String) :
    FramePreserves db (init_user_progress db u today) u := by
  refine ⟨?_, fun _ _ _ => rfl, fun _ _ _ => rfl, ?_, fun _ _ h => h, fun _ _ h => h⟩
  · intro v hv
    simp [init_user_progress, hv]
  · intro v h
    by_cases hv : v = u
    · subst hv; simp [init_user_progress]
    · simpa [init_user_progress, hv] using h

theorem progress_update_frame (db : GamDB) (u : String) (f : ProgressRow → ProgressRow) :
    FramePreserves db
      { db with user_progress := fun v =>
          if v = u then (db.user_progress v).map f else db.user_progress v } u := by
  refine ⟨?_, fun _ _ _ => rfl, fun _ _ _ => rfl, ?_, fun _ _ h => h, fun _ _ h => h⟩
  · intro v hv
    simp [hv]
  · intro v h
    by_cases hv : v = u
    · subst hv; simpa using h
    · simpa [hv] using h

theorem mastery_update_frame (db : GamDB) (u c : String) (row : MasteryRow) :
    FramePreserves db
      { db with concept_mastery := fun v con =>
          if v = u ∧ con = c then some row else db.concept_mastery v con } u := by
  refine ⟨fun _ _ => rfl, ?_, fun _ _ _ => rfl, fun _ h => h, ?_, fun _ _ h => h⟩
  · intro v con hv
    simp [hv]
  · intro v con h
    by_cases hvc : v = u ∧ con = c
    · simp [hvc]
    · simpa [hvc] using h

theorem award_frame (db : GamDB) (u aid : String) :
    FramePreserves db (award_achievement db u aid) u := by
  unfold award_achievement
  split_ifs with h
  · exact frame_refl _ _
  · refine ⟨?_, fun _ _ _ => rfl, ?_, ?_, fun _ _ h2 => h2, ?_⟩
    · intro v hv
      simp [hv]
    · intro v a hv
      simp [hv]
    · intro v h2
      by_cases hv : v = u
      · subst hv; simpa using h2
      · simpa [hv] using h2
    · intro v a h2
      by_cases hva : v = u ∧ a = aid
      · simp [hva]
      · simpa [hva] using h2

theorem check_frame (db : GamDB) (u : String) :
    FramePreserves db (check_achievements db u) u := by
  unfold check_achievements
  have step2 : ∀ d : GamDB, FramePreserves db d u →
      FramePreserves db
        (match d.user_progress u with
         | some r =>
             if 7 ≤ r.streak_days then award_achievement d u "streak_master" else d
         | none => d) u := by
    intro d hd
    rcases hdu : d.user_progress u with _ | r
    · simpa [hdu] using hd
    · by_cases h7 : 7 ≤ r.streak_days
      · simpa [hdu, h7] using frame_trans hd (award_frame d u "streak_master")
      · simpa [hdu, h7] using hd
  apply step2
  rcases hup : db.user_progress u with _ | r
  · simpa [hup] using frame_refl db u
  · by_cases h1 : r.problems_solved = 1
    · simpa [hup, h1] using award_frame db u "first_problem"
    · simpa [hup, h1] using frame_refl db u

/-- C8: `update_user_progress` only creates or modifies rows belonging to the
given user in all three tables, and never deletes a row. -/
theorem C8_update_user_progress_frame (db : GamDB) (u concept : String)
    (difficulty : ℚ) (solved_correctly : Bool) (time_taken : Option ℚ)
    (today : String) :
    FramePreserves db
      (update_user_progress db u concept difficulty solved_correctly time_taken today)
      u := by
  unfold update_user_progress
  exact frame_trans
    (frame_trans
      (frame_trans (init_frame db u today) (progress_update_frame _ u _))
      (mastery_update_frame _ u concept _))
    (check_frame _ u)

/-- Witness for C8: after an update for user `u1`, a row of user `u2` reads
the same as before. -/
theorem C8_update_user_progress_frame_witness :
    ("u2" ≠ "u1") ∧
    (update_user_progress emptyGamDB "u1" "algebra" 2 true none "2026-02-03").achievements
        "u2" "x" = emptyGamDB.achievements "u2" "x" :=
  ⟨by decide,
   (C8_update_user_progress_frame emptyGamDB "u1" "algebra" 2 true none
       "2026-02-03").2.2.1 "u2" "x" (by decide)⟩

theorem award_achievement_mastery (db : GamDB) (u aid : String) :
    (award_achievement db u aid).concept_mastery = db.concept_mastery := by
  unfold award_achievement
  split_ifs <;> rfl

theorem check_achievements_mastery (db : GamDB) (u : String) :
    (check_achievements db u).concept_mastery = db.concept_mastery := by
  unfold check_achievements
  have step2 : ∀ d : GamDB, d.concept_mastery = db.concept_mastery →
      (match d.user_progress u with
       | some r =>
           if 7 ≤ r.streak_days then award_achievement d u "streak_master" else d
       | none => d).concept_mastery = db.concept_mastery := by
    intro d hd
    rcases hdu : d.user_progress u with _ | r
    · simpa [hdu] using hd
    · by_cases h7 : 7 ≤ r.streak_days
      · simpa [hdu, h7, award_achievement_mastery] using hd
      · simpa [hdu, h7] using hd
  apply step2
  rcases hup : db.user_progress u with _ | r
  · simp [hup]
  · by_cases h1 : r.problems_solved = 1
    · simp [hup, h1, award_achievement_mastery]
    · simp [hup, h1]

theorem points_earned_nonneg (difficulty : ℚ) (s : Bool) (t : Option ℚ)
    (hd : 0 ≤ difficulty) : 0 ≤ points_earned difficulty s t := by
  unfold points_earned
  split_ifs <;> dsimp only <;> nlinarith [hd]

theorem proficiency_update (db : GamDB) (u c c2 : String) (d : ℚ) (s : Bool)
    (t : Option ℚ) (day : String) :
    proficiency_of (update_user_progress db u c2 d s t day) u c =
      proficiency_of db u c + (if c2 = c then points_earned d s t / 10 else 0) := by
  unfold update_user_progress proficiency_of
  rw [check_achievements_mastery]
  by_cases hc : c2 = c
  · subst hc
    simp [init_user_progress]
  · have hc2 : ¬ c = c2 := fun h => hc h.symm
    simp [init_user_progress, hc, hc2]

theorem run_attempts_replicate_prof (u c : String) (a : Attempt)
    (hc : a.concept = c) (n : ℕ) : ∀ db : GamDB,
    proficiency_of (run_attempts db u (List.replicate n a)) u c =
      proficiency_of db u c +
        n * (points_earned a.difficulty a.solved_correctly a.time_taken / 10) := by
  induction n with
  | zero => intro db; simp [run_attempts]
  | succ m ih =>
    intro db
    rw [List.replicate_succ]
    have hstep : run_attempts db u (a :: List.replicate m a) =
        run_attempts (update_user_progress db u a.concept a.difficulty
          a.solved_correctly a.time_taken a.day) u (List.replicate m a) := by
      simp [run_attempts]
    rw [hstep, ih, proficiency_update]
    simp only [hc, if_pos rfl]
    push_cast
    ring

/-- C4 (amended): after any sequence of `update_user_progress` calls whose
difficulties are non-negative, the stored proficiency never drops below its
starting value, hence stays `≥ 0` from a fresh database — but the code
imposes no upper bound of 100 (see the counterexample). -/
theorem C4_proficiency_lower_bound (db : GamDB) (u c : String)
    (attempts : List Attempt) (hd : ∀ a ∈ attempts, 0 ≤ a.difficulty) :
    proficiency_of db u c ≤ proficiency_of (run_attempts db u attempts) u c ∧
    0 ≤ proficiency_of (run_attempts emptyGamDB u attempts) u c := by
  have main : ∀ as : List Attempt, (∀ a ∈ as, 0 ≤ a.difficulty) → ∀ d : GamDB,
      proficiency_of d u c ≤ proficiency_of (run_attempts d u as) u c := by
    intro as
    induction as with
    | nil => intro _ d; simp [run_attempts]
    | cons a rest ih =>
      intro has d
      have h1 : run_attempts d u (a :: rest) =
          run_attempts (update_user_progress d u a.concept a.difficulty
            a.solved_correctly a.time_taken a.day) u rest := by
        simp [run_attempts]
      rw [h1]
      refine le_trans ?_ (ih (fun x hx => has x (List.mem_cons_of_mem a hx)) _)
      rw [proficiency_update]
      have hnn := points_earned_nonneg a.difficulty a.solved_correctly a.time_taken
        (has a (List.mem_cons_self a rest))
      split_ifs <;> linarith
  refine ⟨main attempts hd db, ?_⟩
  have h0 : proficiency_of emptyGamDB u c = 0 := rfl
  exact h0 ▸ main attempts hd emptyGamDB

/-- Witness for C4 at one attempt of difficulty 2. -/
theorem C4_proficiency_lower_bound_witness :
    (∀ a ∈ [(⟨"algebra", 2, true, none, "2026-02-03"⟩ : Attempt)], 0 ≤ a.difficulty) ∧
    (proficiency_of emptyGamDB "u1" "algebra" ≤
       proficiency_of
         (run_attempts emptyGamDB "u1" [⟨"algebra", 2, true, none, "2026-02-03"⟩])
         "u1" "algebra" ∧
     0 ≤ proficiency_of
           (run_attempts emptyGamDB "u1" [⟨"algebra", 2, true, none, "2026-02-03"⟩])
           "u1" "algebra") :=
  ⟨by decide,
   C4_proficiency_lower_bound emptyGamDB "u1" "algebra"
     [⟨"algebra", 2, true, none, "2026-02-03"⟩] (by decide)⟩

/-- Counterexample to C4 as stated: 51 solved attempts of difficulty 2 (the
difficulty the app itself passes) drive the stored proficiency to 102,
beyond the claimed upper bound of 100 — the code never clamps it. -/
theorem C4_counterexample :
    ¬ (proficiency_of
        (run_attempts emptyGamDB "u1"
          (List.replicate 51 ⟨"Quadratic Equations", 2, true, none, "2026-02-03"⟩))
        "u1" "Quadratic Equations" ≤ 100) := by
  rw [run_attempts_replicate_prof "u1" "Quadratic Equations" _ rfl 51 emptyGamDB]
  norm_num [proficiency_of, emptyGamDB, points_earned, speedBonus]

/-- C1: classification of `solve_quadratic` by the sign of the discriminant,
for every real `a ≠ 0`, `b`, `c`. -/
theorem C1_solve_quadratic_spec (a b c : ℝ) (ha : a ≠ 0) : QuadClaim a b c := by
  have h2a : (2 : ℝ) * a ≠ 0 := mul_ne_zero two_ne_zero ha
  have key : ∀ s' : ℝ, s' ^ 2 = b ^ 2 - 4 * a * c →
      IsQuadRoot a b c ((-b + s') / (2 * a)) := by
    intro s' hs'
    unfold IsQuadRoot
    have expand1 : a * ((-b + s') / (2 * a)) ^ 2 + b * ((-b + s') / (2 * a)) + c
        = (s' ^ 2 - (b ^ 2 - 4 * a * c)) / (4 * a) := by
      field_simp
      ring
    rw [expand1, hs', sub_self, zero_div]
  refine ⟨⟨?_, ?_⟩, ?_, ?_⟩
  · rintro ⟨res, hres, hq, -⟩
    by_contra hnd
    rcases lt_or_eq_of_le (not_lt.mp hnd) with hlt | heq
    · simp only [solve_quadratic] at hres
      rw [if_neg (by simpa using hnd), if_neg (ne_of_lt hlt), if_neg h2a] at hres
      simp only [Except.ok.injEq] at hres
      subst hres
      simp at hq
    · simp only [solve_quadratic] at hres
      rw [if_neg (by simpa using hnd), if_pos heq, if_neg h2a] at hres
      simp only [Except.ok.injEq] at hres
      subst hres
      simp at hq
  · intro hpos
    have hs : Real.sqrt (b ^ 2 - 4 * a * c) ^ 2 = b ^ 2 - 4 * a * c :=
      Real.sq_sqrt hpos.le
    have hsp : 0 < Real.sqrt (b ^ 2 - 4 * a * c) := Real.sqrt_pos.mpr hpos
    refine ⟨⟨QuadType.real,
      [(-b + Real.sqrt (b ^ 2 - 4 * a * c)) / (2 * a),
       (-b - Real.sqrt (b ^ 2 - 4 * a * c)) / (2 * a)], b ^ 2 - 4 * a * c⟩,
      ?_, rfl, _, _, rfl, ?_, ?_, ?_⟩
    · simp only [solve_quadratic]
      rw [if_pos hpos]
    · intro heq
      rw [div_eq_div_iff h2a h2a] at heq
      have h2 := mul_right_cancel₀ h2a heq
      linarith
    · exact key _ hs
    · have h3 := key (-Real.sqrt (b ^ 2 - 4 * a * c)) (by simpa using hs)
      simpa [sub_eq_add_neg] using h3
  · intro hd0
    constructor
    · simp only [solve_quadratic]
      rw [if_neg (by simp [hd0]), if_pos hd0, if_neg h2a]
    · have h3 := key 0 (by simpa using hd0.symm)
      simpa using h3
  · intro hneg
    refine ⟨⟨QuadType.complex,
      [-b / (2 * a), Real.sqrt (-(b ^ 2 - 4 * a * c)) / (2 * a)],
      b ^ 2 - 4 * a * c⟩, ?_, rfl⟩
    simp only [solve_quadratic]
    rw [if_neg (by simp [asymm hneg]), if_neg (ne_of_lt hneg), if_neg h2a]

/-- Witness for C1 at `a = 1`, `b = 0`, `c = -1`. -/
theorem C1_solve_quadratic_spec_witness :
    ((1 : ℝ) ≠ 0) ∧ QuadClaim 1 0 (-1) :=
  ⟨by norm_num, C1_solve_quadratic_spec 1 0 (-1) (by norm_num)⟩

end AlgebraVisualizer
